import Mathlib

/-!
Verification of the isA_Cloud API gateway request plane.

Go strings are embedded as lists of characters (`Str`); the Go standard
library string operations used by the gateway (`strings.HasPrefix`,
`strings.TrimPrefix`, `strings.SplitN`, `strings.Split`, `strings.Contains`,
`strings.ToLower`, `strings.HasSuffix`) are defined below over that
representation. Each gateway function keeps the name it has in the source.
-/

namespace IsaGateway

/-- Go string, embedded as a list of characters. -/
abbrev Str := List Char

/-- Convenience conversion from a Lean string literal. -/
def str (s : String) : Str := s.toList

/-- Go `strings.HasPrefix(s, pre)`. -/
def goHasPrefixStr (s pre : Str) : Bool := pre.isPrefixOf s

/-- Go `strings.HasSuffix(s, suf)`. -/
def goHasSuffix (s suf : Str) : Bool := suf.isSuffixOf s

/-- Go `strings.TrimPrefix(s, pre)`. -/
def goTrimPrefix (s pre : Str) : Str :=
  if pre.isPrefixOf s then s.drop pre.length else s

/-- Go `strings.Contains(s, sub)`: `sub` occurs as a contiguous substring. -/
def goContains (s sub : Str) : Bool := s.tails.any (fun t => sub.isPrefixOf t)

/-- Go `strings.ToLower(s)` (ASCII-adequate for the fingerprints used here). -/
def goToLower (s : Str) : Str := s.map Char.toLower

/-- Go `strings.SplitN(s, sep, 2)`: split at the first separator only. -/
def splitN2 (sep : Char) : Str → List Str
  | [] => [[]]
  | c :: cs =>
    if c = sep then [[], cs]
    else
      match splitN2 sep cs with
      | x :: xs => (c :: x) :: xs
      | [] => [[c]]

/-- Go `strings.Split(s, sep)` for a one-character separator. -/
def splitOnChar (sep : Char) : Str → List Str
  | [] => [[]]
  | c :: cs =>
    if c = sep then [] :: splitOnChar sep cs
    else
      match splitOnChar sep cs with
      | x :: xs => (c :: x) :: xs
      | [] => [[c]]

/-! ## Unified authentication middleware (internal/gateway/middleware, part_005) -/

/-- `isPublicEndpoint` from the unified authentication middleware: the path is
compared against each entry of `publicPaths` with `strings.HasPrefix`. -/
def isPublicEndpoint (path : Str) : Bool :=
  [str "/health", str "/ready", str "/api/v1/gateway/services"].any
    (fun publicPath => goHasPrefixStr path publicPath)

/-- `isLocalhost` from the middleware. -/
def isLocalhost (ip : Str) : Bool :=
  ip = str "127.0.0.1" || ip = str "::1" || goHasPrefixStr ip (str "localhost")

/-- `isServiceUserAgent` from the middleware. -/
def isServiceUserAgent (userAgent : Str) : Bool :=
  [str "python-httpx", str "axios", str "node-fetch", str "go-resty", str "curl"].any
    (fun serviceUA => goContains (goToLower userAgent) serviceUA)

/-- `extractBlockchainResource` from the middleware. -/
def extractBlockchainResource (path : Str) : Str :=
  if goContains path (str "/balance/") then str "balance_check"
  else if goContains path (str "/transaction") then str "transaction"
  else if goContains path (str "/status") then str "status"
  else str "blockchain_general"

/-- `getAgentAccessLevel` from the middleware. -/
def getAgentAccessLevel (path : Str) : Str :=
  if goContains path (str "/api/chat") then str "read_write" else str "read_only"

/-- `extractMCPResource` from the middleware. -/
def extractMCPResource (path : Str) : Str :=
  if goContains path (str "/search") then str "search"
  else if goContains path (str "/tools/call") then str "tool_execution"
  else if goContains path (str "/prompts/get") then str "prompt_access"
  else str "mcp_general"

/-- `getMCPAccessLevel` from the middleware. -/
def getMCPAccessLevel (path : Str) : Str :=
  if goContains path (str "/tools/call") then str "read_write" else str "read_only"

/-- `getResourceInfoFromPath`: (resource_type, resource_name, required_level). -/
def getResourceInfoFromPath (path : Str) : Str × Str × Str :=
  if goHasPrefixStr path (str "/api/v1/blockchain/") then
    (str "api_endpoint", str "blockchain_" ++ extractBlockchainResource path, str "read_only")
  else if goHasPrefixStr path (str "/api/v1/agents/") then
    (str "api_endpoint", str "agent_chat", getAgentAccessLevel path)
  else if goHasPrefixStr path (str "/api/v1/mcp/") then
    (str "mcp_tool", extractMCPResource path, getMCPAccessLevel path)
  else if goHasPrefixStr path (str "/api/v1/gateway/") then
    (str "api_endpoint", str "gateway_management", str "read_only")
  else ([], [], [])

/-! ### Request, remote-service environment and gin-context model

The middleware's observable effects are modelled by an explicit context
record: `c.JSON(status, body)` appends a `(status, error-field)` pair to
`written`, `c.Abort()` sets `aborted`, and `c.Next()` marks the downstream
handler chain as invoked unless the context was already aborted (gin's
`Abort` moves the handler index past the end, so a later `Next` runs
nothing). Calls to the remote authorization service are counted in
`authzCalls`. The outcomes of the remote identity/authorization HTTP calls
made for this request are an input (`Env`); `Except.error` stands for a
transport failure or an unparsable response, both of which the middleware
treats identically. -/

/-- The authenticated identity attached to the request context.
`anonymous` marks the public-endpoint bypass (the Go code attaches no
identity keys there); the other variants mirror the `c.Set` key groups. -/
inductive Principal where
  | anonymous
  | internalService (userId : Str) (isLocalDev : Bool)
  | externalJWT (userId email provider : Str)
  | externalAPIKey (userId : Str) (permissions : List Str)
deriving DecidableEq

/-- The middleware-relevant parts of an inbound HTTP request. Absent headers
are the empty string, as returned by gin's `GetHeader`; the cookie is an
`Option` because `c.Cookie` reports absence through an error. -/
structure Request where
  path : Str
  authorization : Str
  xApiKey : Str
  apiKeyQuery : Str
  apiKeyCookie : Option Str
  xServiceName : Str
  xServiceSecret : Str
  clientIP : Str
  userAgent : Str
deriving DecidableEq

/-- `/verify-token` response body (fields read by the middleware). -/
structure TokenVerification where
  valid : Bool
  userId : Str
  email : Str
  provider : Str
deriving DecidableEq

/-- `/verify-api-key` response body (fields read by the middleware). -/
structure APIKeyVerification where
  valid : Bool
  keyId : Str
  organizationId : Str
  name : Str
  permissions : List Str
deriving DecidableEq

/-- `/check-access` response body (fields read by the middleware). -/
structure AccessCheck where
  hasAccess : Bool
  userAccessLevel : Str
  permissionSource : Str
  subscriptionTier : Str
deriving DecidableEq

/-- Outcomes of the remote calls this request would make, plus the consul
service list (`none` when consul is nil or `ListServices` fails). -/
structure Env where
  verifyToken : Except Unit TokenVerification
  verifyApiKey : Except Unit APIKeyVerification
  checkAccess : Except Unit AccessCheck
  consulServices : Option (List Str)

/-- Observable gin context state threaded through the middleware. -/
structure GinCtx where
  written : List (Nat × Str) := []
  aborted : Bool := false
  nextCalled : Bool := false
  principal : Option Principal := none
  accessLevel : Option Str := none
  authzCalls : Nat := 0
deriving DecidableEq

/-- `c.JSON(status, gin.H{"error": err, ...})`. -/
def GinCtx.json (c : GinCtx) (status : Nat) (err : Str) : GinCtx :=
  { c with written := c.written ++ [(status, err)] }

/-- `c.Abort()`. -/
def GinCtx.abort (c : GinCtx) : GinCtx := { c with aborted := true }

/-- `c.Next()`: runs the rest of the chain unless already aborted. -/
def GinCtx.next (c : GinCtx) : GinCtx :=
  if c.aborted then c else { c with nextCalled := true }

/-- `isValidInternalService`: the name must appear in consul's service list;
a nil consul or a `ListServices` error yields false. -/
def isValidInternalService (serviceName : Str) (env : Env) : Bool :=
  match env.consulServices with
  | none => false
  | some services => services.any (fun s => s = serviceName)

/-- `checkResourcePermissions`: derives the resource selector from the path,
skips the gate when the type or level is empty, otherwise makes exactly one
`/check-access` call; a transport/parse failure is allowed (fail-open), a
`has_access=false` reply denies. Returns the updated context and the
boolean the Go function returns. -/
def checkResourcePermissions (env : Env) (path : Str) (c : GinCtx) : GinCtx × Bool :=
  let info := getResourceInfoFromPath path
  let resourceType := info.1
  let requiredLevel := info.2.2
  if resourceType = [] ∨ requiredLevel = [] then (c, true)
  else
    let c := { c with authzCalls := c.authzCalls + 1 }
    match env.checkAccess with
    | .error _ => (c, true)
    | .ok accessResp =>
      if !accessResp.hasAccess then (c, false)
      else ({ c with accessLevel := some accessResp.userAccessLevel }, true)

/-- `handleJWTAuth`: parse the Bearer token, verify it against the identity
service, attach the external-JWT principal, then run the resource
authorization gate; a gate denial writes 403, aborts, and returns false. -/
def handleJWTAuth (req : Request) (env : Env) (c : GinCtx) : GinCtx × Bool :=
  if req.authorization = [] then (c, false)
  else
    match splitN2 ' ' req.authorization with
    | [scheme, token] =>
      if scheme ≠ str "Bearer" then (c, false)
      else if token = [] then (c, false)
      else
        match env.verifyToken with
        | .error _ => (c, false)
        | .ok tokenResp =>
          if !tokenResp.valid then (c, false)
          else
            let c := { c with
              principal := some (.externalJWT tokenResp.userId tokenResp.email tokenResp.provider) }
            let gate := checkResourcePermissions env req.path c
            if !gate.2 then
              (((gate.1).json 403 (str "insufficient permissions")).abort, false)
            else
              ((gate.1).next, true)
    | _ => (c, false)

/-- `handleAPIKeyAuth`: look for the key in header, query, then cookie;
verify it against the identity service; on success attach the API-key
principal (`user_id = "api-key-" + key_id`) with its permission list. It
never touches the authorization service. -/
def handleAPIKeyAuth (req : Request) (env : Env) (c : GinCtx) : GinCtx × Bool :=
  let apiKey := req.xApiKey
  let apiKey := if apiKey = [] then req.apiKeyQuery else apiKey
  let apiKey := if apiKey = [] then (req.apiKeyCookie).getD [] else apiKey
  if apiKey = [] then (c, false)
  else
    match env.verifyApiKey with
    | .error _ => (c, false)
    | .ok keyResp =>
      if !keyResp.valid then (c, false)
      else
        let c := { c with
          principal := some (.externalAPIKey (str "api-key-" ++ keyResp.keyId) keyResp.permissions) }
        (c.next, true)

/-- `handleInternalServiceAuth`: explicit service headers validated against
consul, else the loopback + service-user-agent development heuristic. -/
def handleInternalServiceAuth (req : Request) (env : Env) (c : GinCtx) : GinCtx × Bool :=
  if req.xServiceName ≠ [] ∧ req.xServiceSecret ≠ [] ∧ env.consulServices.isSome
      ∧ isValidInternalService req.xServiceName env then
    (({ c with principal := some (.internalService (str "service-" ++ req.xServiceName) false) }).next,
      true)
  else if isLocalhost req.clientIP ∧ isServiceUserAgent req.userAgent then
    (({ c with principal := some (.internalService (str "local-dev-service") true) }).next, true)
  else (c, false)

/-- `handleExternalAuth`: JWT flow first, then the API-key flow. -/
def handleExternalAuth (req : Request) (env : Env) (c : GinCtx) : GinCtx × Bool :=
  let jwt := handleJWTAuth req env c
  if jwt.2 then jwt
  else
    let key := handleAPIKeyAuth req env jwt.1
    if key.2 then key else (key.1, false)

/-- `UnifiedAuthentication`: public bypass, internal service recognition,
external (JWT then API key) authentication, else 401. -/
def UnifiedAuthentication (req : Request) (env : Env) : GinCtx :=
  let c : GinCtx := {}
  if isPublicEndpoint req.path then
    ({ c with principal := some .anonymous }).next
  else
    let internal := handleInternalServiceAuth req env c
    if internal.2 then internal.1
    else
      let ext := handleExternalAuth req env internal.1
      if ext.2 then ext.1
      else ((ext.1).json 401 (str "authentication required")).abort

/-! ## Dynamic proxy and SSE streaming proxy (internal/gateway/proxy) -/

/-- A consul service record as returned to the router. -/
structure ServiceInstance where
  id : Str
  name : Str
  host : Str
  port : Nat
  tags : List Str
deriving DecidableEq, Inhabited

/-- The tag scan in `DynamicProxy.Handler`: an instance is routed through
the SSE proxy iff some tag equals `sse` or `streaming`. -/
def hasSSETag (tags : List Str) : Bool :=
  tags.any (fun tag => tag = str "sse" || tag = str "streaming")

/-- The proxy strategy the router selects for a discovered instance. -/
inductive ProxyStrategy where
  | sse
  | standard
deriving DecidableEq

/-- Strategy selection in `DynamicProxy.Handler` for a registry-discovered
instance. -/
def chooseStrategy (instance_ : ServiceInstance) : ProxyStrategy :=
  if hasSSETag instance_.tags then .sse else .standard

/-- The path rewrite shared by `SSEProxy.proxySSE` and `SSEProxy.proxyHTTP`:
paths under `/api/v1/agents/` or `/api/v1/models/` are kept whole; other
`/api/v1/` paths lose the `/api/v1/{service}` prefix. -/
def rewriteSSEPath (path : Str) : Str :=
  if goHasPrefixStr path (str "/api/v1/agents/") || goHasPrefixStr path (str "/api/v1/models/") then
    path
  else if goHasPrefixStr path (str "/api/v1/") then
    match splitN2 '/' (goTrimPrefix path (str "/api/v1/")) with
    | [_, rest] => '/' :: rest
    | _ => ['/']
  else path

/-- `singleJoiningSlash` from Go's `net/http/httputil`, used by
`NewSingleHostReverseProxy` to build the upstream path. -/
def singleJoiningSlash (a b : Str) : Str :=
  if goHasSuffix a (str "/") ∧ goHasPrefixStr b (str "/") then a ++ b.drop 1
  else if ¬ goHasSuffix a (str "/") ∧ ¬ goHasPrefixStr b (str "/") then a ++ '/' :: b
  else a ++ b

/-- The upstream path produced by the standard proxy
(`httputil.NewSingleHostReverseProxy` over a host-only target URL, whose
parsed path is empty) — used for registry-discovered untagged instances and
for the static-fallback proxies alike. -/
def standardProxyForwardPath (path : Str) : Str := singleJoiningSlash [] path

/-- The upstream response fields the SSE proxy inspects; the body is the
sequence of lines `bufio.Scanner` yields (newlines stripped). -/
structure UpstreamResponse where
  contentType : Str
  status : Nat
  headers : List (Str × Str)
  bodyLines : List Str
deriving DecidableEq

/-- One write or flush on the downstream stream. -/
inductive StreamOp where
  | write (bytes : Str)
  | flush
deriving DecidableEq

/-- What the SSE proxy component sends downstream: either a buffered
header+body copy or a streamed response with explicit stream operations. -/
inductive ProxyOutput where
  | copy (headers : List (Str × Str)) (status : Nat) (bodyLines : List Str)
  | stream (headers : List (Str × Str)) (status : Nat) (ops : List StreamOp)
deriving DecidableEq

/-- `SSEProxy.copyResponse`: forward non-hop-by-hop headers, the status
code, and the body. -/
def copyResponse (resp : UpstreamResponse) : ProxyOutput :=
  .copy resp.headers resp.status resp.bodyLines

/-- The streaming loop of `proxySSE`: every scanned line is written back
with a trailing newline, and the writer is flushed after each blank line
(the SSE event separator); the loop ends at EOF. -/
def streamSSE : List Str → List StreamOp
  | [] => []
  | line :: rest =>
    .write (line ++ ['\n']) :: (if line = [] then [StreamOp.flush] else []) ++ streamSSE rest

/-- The headers `proxySSE` sets on an event-stream response. -/
def sseResponseHeaders : List (Str × Str) :=
  [(str "Content-Type", str "text/event-stream"),
   (str "Cache-Control", str "no-cache"),
   (str "Connection", str "keep-alive"),
   (str "X-Accel-Buffering", str "no")]

/-- Response handling of `proxySSE`: a non-event-stream upstream is copied
normally; an event-stream upstream gets the SSE headers, the upstream
status, and the line-by-line stream. -/
def proxySSERespond (resp : UpstreamResponse) : ProxyOutput :=
  if ¬ goContains resp.contentType (str "text/event-stream") then copyResponse resp
  else .stream sseResponseHeaders resp.status (streamSSE resp.bodyLines)

/-- Response handling of `proxyHTTP`: always a buffered copy. -/
def proxyHTTPRespond (resp : UpstreamResponse) : ProxyOutput := copyResponse resp

/-- `SSEProxy.Handler` combined with the response phase: requests whose
`Accept` includes neither `text/event-stream` nor `*/*` fall back to
`proxyHTTP`; others go through `proxySSE`. -/
def sseProxyHandle (accept : Str) (resp : UpstreamResponse) : ProxyOutput :=
  if ¬ goContains accept (str "text/event-stream") ∧ ¬ goContains accept (str "*/*") then
    proxyHTTPRespond resp
  else proxySSERespond resp

/-! ## Consul registry client (internal/gateway/registry, part_008) -/

/-- A consul health-catalog entry for one service instance. -/
structure HealthEntry where
  instance_ : ServiceInstance
  healthy : Bool
deriving DecidableEq

/-- Error cases of `DiscoverService`. -/
inductive DiscoverError where
  | transportFailure
  | noHealthyInstances
deriving DecidableEq

/-- The passing-only health query `Health().Service(name, "", true, nil)`:
consul returns exactly the healthy records. -/
def consulPassingQuery (catalog : List HealthEntry) : List ServiceInstance :=
  (catalog.filter (fun e => e.healthy)).map (fun e => e.instance_)

/-- `DiscoverService`: a transport error is propagated, and an empty healthy
set is turned into an error ("no healthy instances found for service"). -/
def DiscoverService (query : Except Unit (List HealthEntry)) :
    Except DiscoverError (List ServiceInstance) :=
  match query with
  | .error _ => .error .transportFailure
  | .ok catalog =>
    let services := consulPassingQuery catalog
    if services.length = 0 then .error .noHealthyInstances
    else .ok services

/-- `GetHealthyInstance`: discover, then return the first instance. -/
def GetHealthyInstance (query : Except Unit (List HealthEntry)) :
    Except DiscoverError ServiceInstance :=
  match DiscoverService query with
  | .error e => .error e
  | .ok instances => .ok instances.head!

/-! ## MQTT adapter (internal/gateway/mqtt/adapter.go) -/

/-- The segment loop of `matchTopic`, run after the length guard: a literal
segment must match, `+` matches any one segment, and `#` accepts
immediately. -/
def matchTopicSegs : List Str → List Str → Bool
  | [], [] => true
  | part :: ps, t :: ts =>
    if part ≠ str "+" ∧ part ≠ str "#" ∧ part ≠ t then false
    else if part = str "#" then true
    else matchTopicSegs ps ts
  | _, _ => false

/-- `matchTopic`: split both pattern and topic on `/`; unequal segment
counts never match; otherwise compare segment-wise. -/
def matchTopic (pattern topic : Str) : Bool :=
  let patternParts := splitOnChar '/' pattern
  let topicParts := splitOnChar '/' topic
  if patternParts.length ≠ topicParts.length then false
  else matchTopicSegs patternParts topicParts

/-- `handleMessage` routing: the first registered pattern matching the
delivered topic wins; with no match the message is dropped (no handler). -/
def handleMessage (handlers : List (Str × α)) (topic : Str) : Option α :=
  (handlers.find? (fun h => matchTopic h.1 topic)).map (fun h => h.2)

/-! ## Rate limiter and gateway wiring (middleware RateLimit, gateway.go) -/

/-- The `golang.org/x/time/rate` token bucket, modelled from the library's
documented semantics: the bucket starts full at `burst` tokens and refills
continuously at `rate` tokens per second, capped at `burst`. -/
structure Limiter where
  tokens : ℚ
deriving DecidableEq

/-- `rate.NewLimiter(rate.Limit(rps), burst)`: a fresh, full bucket. -/
def newLimiter (burst : ℚ) : Limiter := ⟨burst⟩

/-- `limiter.Allow()` after `elapsed` seconds since the previous call:
refill, then admit iff at least one token is available. -/
def limiterAllow (rps burst : ℚ) (elapsed : ℚ) (l : Limiter) : Bool × Limiter :=
  let tokens := min burst (l.tokens + elapsed * rps)
  if 1 ≤ tokens then (true, ⟨tokens - 1⟩) else (false, ⟨tokens⟩)

/-- Decimal rendering used for the `%d` in the 429 message. -/
def natToStr (n : Nat) : Str := (Nat.repr n).toList

/-- Outcome of the rate-limiting middleware for one request. -/
inductive GateResult where
  | limited (status : Nat) (err msg : Str)
  | routed
deriving DecidableEq

/-- The `RateLimit` middleware step: the single global limiter decides
admission with no access to the request (in particular, not to its path);
denial yields 429 with the documented body. When the limiter is disabled in
configuration, `SetupHTTPRoutes` does not install the middleware at all. -/
def RateLimit (enabled : Bool) (rps burst : Nat) (elapsed : ℚ) (l : Limiter) :
    Limiter × GateResult :=
  if enabled then
    let r := limiterAllow rps burst elapsed l
    if r.1 then (r.2, .routed)
    else (r.2, .limited 429 (str "rate limit exceeded")
      (str "rate limit: " ++ natToStr rps ++ str " requests per second"))
  else (l, .routed)

/-- The status a `/health` request observes: 429 when limited, otherwise
the `healthCheck` handler's unconditional 200. -/
def healthStatus : GateResult → Nat
  | .limited status _ _ => status
  | .routed => 200

/-! ## Stream accounting -/

/-- All bytes written by a sequence of stream operations, in order. -/
def writtenBytes : List StreamOp → Str
  | [] => []
  | .write b :: ops => b ++ writtenBytes ops
  | .flush :: ops => writtenBytes ops

/-- Number of flushes a sequence of stream operations performs. -/
def flushCount : List StreamOp → Nat
  | [] => 0
  | .flush :: ops => flushCount ops + 1
  | .write _ :: ops => flushCount ops

/-! ## Sample data used by witnesses and counterexamples -/

/-- A JWT request to the MCP tool-call endpoint from an external address,
with no API key attached. -/
def reqDeny : Request :=
  { path := str "/api/v1/mcp/tools/call"
    authorization := str "Bearer tok123"
    xApiKey := []
    apiKeyQuery := []
    apiKeyCookie := none
    xServiceName := []
    xServiceSecret := []
    clientIP := str "203.0.113.5"
    userAgent := str "Mozilla/5.0" }

/-- A successful `/verify-token` reply. -/
def tokenOK : TokenVerification :=
  { valid := true, userId := str "u2", email := str "u2@x", provider := str "auth0" }

/-- A `/check-access` reply with `has_access=false`. -/
def accessDenied : AccessCheck :=
  { hasAccess := false, userAccessLevel := [], permissionSource := [],
    subscriptionTier := [] }

/-- A successful `/verify-api-key` reply. -/
def apiKeyOK : APIKeyVerification :=
  { valid := true, keyId := str "k1", organizationId := str "o", name := str "n",
    permissions := [str "read"] }

/-- Environment: token valid, access denied, API-key verification failing. -/
def envDeny : Env :=
  { verifyToken := .ok tokenOK, verifyApiKey := .error (), checkAccess := .ok accessDenied,
    consulServices := none }

/-- Environment: token valid, access denied, but a valid API key. -/
def envApiKeyAfterDeny : Env := { envDeny with verifyApiKey := .ok apiKeyOK }

/-- The deny-scenario request carrying an API key as well. -/
def reqWithKey : Request := { reqDeny with xApiKey := str "sk-abc" }

/-- Environment with the authorization service unreachable. -/
def envFailOpen : Env := { envDeny with checkAccess := .error () }

/-- An unauthenticated request to the health endpoint. -/
def reqHealth : Request := { reqDeny with path := str "/health", authorization := [] }

/-- An upstream SSE response with two events. -/
def sseUpstream : UpstreamResponse :=
  { contentType := str "text/event-stream", status := 200, headers := []
    bodyLines := [str "data: hi", [], str "data: [DONE]", []] }

/-- An upstream JSON (non-SSE) response. -/
def jsonUpstream : UpstreamResponse :=
  { contentType := str "application/json", status := 201
    headers := [(str "Content-Type", str "application/json")]
    bodyLines := [str "{}"] }

/-- A registry instance tagged for SSE streaming. -/
def sampleInstance : ServiceInstance :=
  { id := str "mcp-1", name := str "mcp", host := str "10.0.0.5", port := 8081,
    tags := [str "sse"] }

/-- A catalog holding one unhealthy record of `sampleInstance`. -/
def unhealthyCatalog : List HealthEntry := [{ instance_ := sampleInstance, healthy := false }]

/-- A catalog holding one healthy record of `sampleInstance`. -/
def healthyCatalog : List HealthEntry := [{ instance_ := sampleInstance, healthy := true }]

/-! ## String-operation lemmas -/

theorem splitN2_no_sep {sep : Char} : ∀ {a : Str}, sep ∉ a → splitN2 sep a = [a]
  | [], _ => rfl
  | c :: cs, h => by
    have hc : ¬ c = sep := fun hcs => h (hcs ▸ List.mem_cons_self c cs)
    have ih := splitN2_no_sep (a := cs) (fun hm => h (List.mem_cons_of_mem c hm))
    simp [splitN2, hc, ih]

theorem splitN2_append_sep {sep : Char} :
    ∀ {a : Str} (rest : Str), sep ∉ a → splitN2 sep (a ++ sep :: rest) = [a, rest]
  | [], rest, _ => by simp [splitN2]
  | c :: cs, rest, h => by
    have hc : ¬ c = sep := fun hcs => h (hcs ▸ List.mem_cons_self c cs)
    have ih := splitN2_append_sep (a := cs) rest (fun hm => h (List.mem_cons_of_mem c hm))
    simp [splitN2, hc, ih]

theorem splitOnChar_no_sep {sep : Char} : ∀ {a : Str}, sep ∉ a → splitOnChar sep a = [a]
  | [], _ => rfl
  | c :: cs, h => by
    have hc : ¬ c = sep := fun hcs => h (hcs ▸ List.mem_cons_self c cs)
    have ih := splitOnChar_no_sep (a := cs) (fun hm => h (List.mem_cons_of_mem c hm))
    simp [splitOnChar, hc, ih]

theorem splitOnChar_append_sep {sep : Char} :
    ∀ {a : Str} (rest : Str), sep ∉ a →
      splitOnChar sep (a ++ sep :: rest) = a :: splitOnChar sep rest
  | [], rest, _ => by simp [splitOnChar]
  | c :: cs, rest, h => by
    have hc : ¬ c = sep := fun hcs => h (hcs ▸ List.mem_cons_self c cs)
    have ih := splitOnChar_append_sep (a := cs) rest (fun hm => h (List.mem_cons_of_mem c hm))
    have hne : splitOnChar sep (cs ++ sep :: rest) ≠ [] := by
      rw [ih]; exact List.cons_ne_nil _ _
    simp [splitOnChar, hc, ih]

/-- Bridge between the boolean check and the `<+:` relation. -/
theorem isPrefixOf_eq_true_iff {a b : Str} : a.isPrefixOf b = true ↔ a <+: b :=
  List.isPrefixOf_iff_prefix

theorem goTrimPrefix_append (pre rest : Str) : goTrimPrefix (pre ++ rest) pre = rest := by
  have hp : pre.isPrefixOf (pre ++ rest) = true :=
    isPrefixOf_eq_true_iff.mpr (List.prefix_append pre rest)
  unfold goTrimPrefix
  rw [if_pos hp]
  exact List.drop_left pre rest

/-- A prefix comparison across a separator that occurs in neither side's
head part identifies the head parts. -/
theorem sep_marked_prefix {sep : Char} :
    ∀ {a b : Str} (u v : Str), sep ∉ a → sep ∉ b →
      ((a ++ sep :: u) <+: (b ++ sep :: v) ↔ a = b ∧ u <+: v)
  | [], [], u, v, _, _ => by simp
  | [], c :: cs, u, v, _, hb => by
    have hc : ¬ sep = c := fun hcs => hb (hcs ▸ List.mem_cons_self c cs)
    simp [List.cons_prefix_cons, hc]
  | c :: cs, [], u, v, ha, _ => by
    have hc : ¬ c = sep := fun hcs => ha (hcs ▸ List.mem_cons_self c cs)
    simp [List.cons_prefix_cons, hc]
  | c :: cs, d :: ds, u, v, ha, hb => by
    have ih := sep_marked_prefix (a := cs) (b := ds) u v
      (fun hm => ha (List.mem_cons_of_mem c hm)) (fun hm => hb (List.mem_cons_of_mem d hm))
    simp [List.cons_prefix_cons, ih, and_assoc]

/-! ## Gin-context bookkeeping lemmas -/

theorem GinCtx.next_principal (c : GinCtx) : (c.next).principal = c.principal := by
  unfold GinCtx.next; split <;> rfl

theorem GinCtx.next_authzCalls (c : GinCtx) : (c.next).authzCalls = c.authzCalls := by
  unfold GinCtx.next; split <;> rfl

theorem GinCtx.next_written (c : GinCtx) : (c.next).written = c.written := by
  unfold GinCtx.next; split <;> rfl

theorem GinCtx.next_aborted (c : GinCtx) : (c.next).aborted = c.aborted := by
  unfold GinCtx.next; split <;> rfl

theorem checkResourcePermissions_principal (env : Env) (path : Str) (c : GinCtx) :
    ((checkResourcePermissions env path c).1).principal = c.principal := by
  unfold checkResourcePermissions
  cases env.checkAccess <;> dsimp only [] <;> split_ifs <;> rfl

theorem checkResourcePermissions_aborted (env : Env) (path : Str) (c : GinCtx) :
    ((checkResourcePermissions env path c).1).aborted = c.aborted := by
  unfold checkResourcePermissions
  cases env.checkAccess <;> dsimp only [] <;> split_ifs <;> rfl

theorem checkResourcePermissions_written (env : Env) (path : Str) (c : GinCtx) :
    ((checkResourcePermissions env path c).1).written = c.written := by
  unfold checkResourcePermissions
  cases env.checkAccess <;> dsimp only [] <;> split_ifs <;> rfl

theorem checkResourcePermissions_nextCalled (env : Env) (path : Str) (c : GinCtx) :
    ((checkResourcePermissions env path c).1).nextCalled = c.nextCalled := by
  unfold checkResourcePermissions
  cases env.checkAccess <;> dsimp only [] <;> split_ifs <;> rfl

/-- The gate makes exactly one authorization call when the derived selector
is non-empty, and none otherwise, regardless of the outcome. -/
theorem checkResourcePermissions_authzCalls (env : Env) (path : Str) (c : GinCtx) :
    ((checkResourcePermissions env path c).1).authzCalls =
      c.authzCalls +
        (if (getResourceInfoFromPath path).1 = [] ∨ (getResourceInfoFromPath path).2.2 = []
          then 0 else 1) := by
  unfold checkResourcePermissions
  cases env.checkAccess <;> dsimp only [] <;> split_ifs <;> rfl


/-! ## Gin-context and middleware branch lemmas -/

theorem GinCtx.json_principal (c : GinCtx) (s : Nat) (e : Str) :
    (c.json s e).principal = c.principal := rfl

theorem GinCtx.abort_principal (c : GinCtx) : (c.abort).principal = c.principal := rfl

theorem GinCtx.json_authzCalls (c : GinCtx) (s : Nat) (e : Str) :
    (c.json s e).authzCalls = c.authzCalls := rfl

theorem GinCtx.abort_authzCalls (c : GinCtx) : (c.abort).authzCalls = c.authzCalls := rfl

theorem handleAPIKeyAuth_authzCalls (req : Request) (env : Env) (c : GinCtx) :
    ((handleAPIKeyAuth req env c).1).authzCalls = c.authzCalls := by
  unfold handleAPIKeyAuth
  cases env.verifyApiKey <;> dsimp only [] <;> split_ifs <;>
    simp [GinCtx.next_authzCalls]

theorem handleAPIKeyAuth_written (req : Request) (env : Env) (c : GinCtx) :
    ((handleAPIKeyAuth req env c).1).written = c.written := by
  unfold handleAPIKeyAuth
  cases env.verifyApiKey <;> dsimp only [] <;> split_ifs <;>
    simp [GinCtx.next_written]

theorem handleAPIKeyAuth_aborted (req : Request) (env : Env) (c : GinCtx) :
    ((handleAPIKeyAuth req env c).1).aborted = c.aborted := by
  unfold handleAPIKeyAuth
  cases env.verifyApiKey <;> dsimp only [] <;> split_ifs <;>
    simp [GinCtx.next_aborted]

/-- gin's `Next` after an `Abort` runs no further handler, so an aborted
context keeps its `nextCalled` flag through the API-key flow. -/
theorem handleAPIKeyAuth_nextCalled_of_aborted (req : Request) (env : Env) (c : GinCtx)
    (h : c.aborted = true) :
    ((handleAPIKeyAuth req env c).1).nextCalled = c.nextCalled := by
  unfold handleAPIKeyAuth
  cases env.verifyApiKey <;> dsimp only [] <;> split_ifs <;>
    simp [GinCtx.next, h]

theorem handleAPIKeyAuth_principal (req : Request) (env : Env) (c : GinCtx) :
    ((handleAPIKeyAuth req env c).1).principal = c.principal ∨
      ∃ u perms, ((handleAPIKeyAuth req env c).1).principal =
        some (.externalAPIKey u perms) := by
  unfold handleAPIKeyAuth
  cases env.verifyApiKey <;> dsimp only [] <;> split_ifs <;>
    simp [GinCtx.next, *] <;> split_ifs <;> simp

theorem handleAPIKeyAuth_no_key (req : Request) (env : Env) (c : GinCtx)
    (hk : req.xApiKey = []) (hq : req.apiKeyQuery = []) (hco : req.apiKeyCookie = none) :
    handleAPIKeyAuth req env c = (c, false) := by
  unfold handleAPIKeyAuth
  simp [hk, hq, hco]

theorem handleInternalServiceAuth_authzCalls (req : Request) (env : Env) (c : GinCtx) :
    ((handleInternalServiceAuth req env c).1).authzCalls = c.authzCalls := by
  unfold handleInternalServiceAuth
  split_ifs <;> simp [GinCtx.next_authzCalls]

theorem handleInternalServiceAuth_principal (req : Request) (env : Env) (c : GinCtx) :
    ((handleInternalServiceAuth req env c).1).principal = c.principal ∨
      ∃ n d, ((handleInternalServiceAuth req env c).1).principal =
        some (.internalService n d) := by
  unfold handleInternalServiceAuth
  split_ifs <;> simp [GinCtx.next, *] <;> split_ifs <;> simp

theorem handleInternalServiceAuth_skip (req : Request) (env : Env) (c : GinCtx)
    (hsvc : req.xServiceName = []) (hip : isLocalhost req.clientIP = false) :
    handleInternalServiceAuth req env c = (c, false) := by
  unfold handleInternalServiceAuth
  simp [hsvc, hip]

theorem handleJWTAuth_no_header (req : Request) (env : Env) (c : GinCtx)
    (h : req.authorization = []) : handleJWTAuth req env c = (c, false) := by
  unfold handleJWTAuth
  simp [h]

/-- The JWT flow after a successful `Bearer` parse and a valid verification
reply: it attaches the JWT principal and defers to the authorization gate. -/
theorem handleJWTAuth_verified (req : Request) (env : Env) (c : GinCtx) (t : Str)
    (r : TokenVerification)
    (hauth : req.authorization = str "Bearer " ++ t) (ht : t ≠ [])
    (hv : env.verifyToken = .ok r) (hvalid : r.valid = true) :
    handleJWTAuth req env c =
      (let gate := checkResourcePermissions env req.path
          { c with principal := some (.externalJWT r.userId r.email r.provider) }
        if !gate.2 then (((gate.1).json 403 (str "insufficient permissions")).abort, false)
        else ((gate.1).next, true)) := by
  have happ : req.authorization = str "Bearer" ++ ' ' :: t := hauth
  unfold handleJWTAuth
  rw [happ, splitN2_append_sep t (by decide)]
  simp [List.append_ne_nil_of_left_ne_nil, ht, hv, hvalid]

theorem checkResourcePermissions_error (env : Env) (path : Str) (c : GinCtx) (u : Unit)
    (henv : env.checkAccess = .error u)
    (hsel : ¬((getResourceInfoFromPath path).1 = [] ∨ (getResourceInfoFromPath path).2.2 = [])) :
    checkResourcePermissions env path c =
      ({ c with authzCalls := c.authzCalls + 1 }, true) := by
  unfold checkResourcePermissions
  rw [henv]
  simp [hsel]

theorem checkResourcePermissions_deny (env : Env) (path : Str) (c : GinCtx)
    (a : AccessCheck) (henv : env.checkAccess = .ok a) (ha : a.hasAccess = false)
    (hsel : ¬((getResourceInfoFromPath path).1 = [] ∨ (getResourceInfoFromPath path).2.2 = [])) :
    checkResourcePermissions env path c =
      ({ c with authzCalls := c.authzCalls + 1 }, false) := by
  unfold checkResourcePermissions
  rw [henv]
  simp [hsel, ha]

theorem handleJWTAuth_principal (req : Request) (env : Env) (c : GinCtx) :
    ((handleJWTAuth req env c).1).principal = c.principal ∨
      ∃ u e p, ((handleJWTAuth req env c).1).principal = some (.externalJWT u e p) := by
  unfold handleJWTAuth
  split_ifs
  · simp
  · rcases splitN2 ' ' req.authorization with _ | ⟨scheme, _ | ⟨token, _ | _⟩⟩ <;>
      dsimp only [] <;> try simp
    split_ifs <;> try simp
    cases env.verifyToken <;> dsimp only [] <;> (try split_ifs) <;>
      simp [GinCtx.next_principal, GinCtx.json_principal, GinCtx.abort_principal,
        checkResourcePermissions_principal]

theorem handleExternalAuth_principal (req : Request) (env : Env) (c : GinCtx) :
    ((handleExternalAuth req env c).1).principal = c.principal ∨
      (∃ u e p, ((handleExternalAuth req env c).1).principal = some (.externalJWT u e p)) ∨
      (∃ u perms, ((handleExternalAuth req env c).1).principal =
        some (.externalAPIKey u perms)) := by
  unfold handleExternalAuth
  dsimp only []
  split_ifs with h1 h2
  · rcases handleJWTAuth_principal req env c with h | ⟨u, e, p, h⟩
    · exact Or.inl h
    · exact Or.inr (Or.inl ⟨u, e, p, h⟩)
  all_goals {
    rcases handleAPIKeyAuth_principal req env (handleJWTAuth req env c).1 with h | ⟨u, perms, h⟩
    · rcases handleJWTAuth_principal req env c with h0 | ⟨u, e, p, h0⟩
      · exact Or.inl (h.trans h0)
      · exact Or.inr (Or.inl ⟨u, e, p, h.trans h0⟩)
    · exact Or.inr (Or.inr ⟨u, perms, h⟩) }

theorem handleExternalAuth_authzCalls_no_header (req : Request) (env : Env) (c : GinCtx)
    (h : req.authorization = []) :
    ((handleExternalAuth req env c).1).authzCalls = c.authzCalls := by
  unfold handleExternalAuth
  rw [handleJWTAuth_no_header req env c h]
  dsimp only []
  split_ifs <;> simp [handleAPIKeyAuth_authzCalls]

/-- A request that presents no `Authorization` header never reaches the
authorization gate, whatever else it presents. -/
theorem UnifiedAuthentication_authzCalls_no_header (req : Request) (env : Env)
    (h : req.authorization = []) : (UnifiedAuthentication req env).authzCalls = 0 := by
  unfold UnifiedAuthentication
  dsimp only []
  split_ifs
  · simp [GinCtx.next]
  · rw [handleInternalServiceAuth_authzCalls]
  · rw [handleExternalAuth_authzCalls_no_header req env _ h,
      handleInternalServiceAuth_authzCalls]
  · rw [GinCtx.abort_authzCalls, GinCtx.json_authzCalls,
      handleExternalAuth_authzCalls_no_header req env _ h,
      handleInternalServiceAuth_authzCalls]

/-- Only the public-endpoint bypass produces the Anonymous principal. -/
theorem UnifiedAuthentication_anonymous_public (req : Request) (env : Env)
    (h : (UnifiedAuthentication req env).principal = some .anonymous) :
    isPublicEndpoint req.path = true := by
  by_cases hp : isPublicEndpoint req.path = true
  · exact hp
  · exfalso
    unfold UnifiedAuthentication at h
    rw [if_neg hp] at h
    dsimp only [] at h
    split_ifs at h
    · rcases handleInternalServiceAuth_principal req env {} with h0 | ⟨n, d, h0⟩ <;>
        rw [h0] at h <;> simp_all
    · rcases handleExternalAuth_principal req env (handleInternalServiceAuth req env {}).1 with
        h0 | ⟨u, e, p, h0⟩ | ⟨u, perms, h0⟩ <;> rw [h0] at h <;> try simp_all
      rcases handleInternalServiceAuth_principal req env {} with h1 | ⟨n, d, h1⟩ <;>
        rw [h1] at h <;> simp_all
    · rw [GinCtx.abort_principal, GinCtx.json_principal] at h
      rcases handleExternalAuth_principal req env (handleInternalServiceAuth req env {}).1 with
        h0 | ⟨u, e, p, h0⟩ | ⟨u, perms, h0⟩ <;> rw [h0] at h <;> try simp_all
      rcases handleInternalServiceAuth_principal req env {} with h1 | ⟨n, d, h1⟩ <;>
        rw [h1] at h <;> simp_all

/-- With no public bypass and no internal-service match, the middleware is
exactly the external flow followed by the 401 fallback. -/
theorem UnifiedAuthentication_external_route (req : Request) (env : Env)
    (hpub : isPublicEndpoint req.path = false)
    (hsvc : req.xServiceName = []) (hip : isLocalhost req.clientIP = false) :
    UnifiedAuthentication req env =
      (if (handleExternalAuth req env {}).2 then (handleExternalAuth req env {}).1
       else (((handleExternalAuth req env {}).1).json 401
          (str "authentication required")).abort) := by
  unfold UnifiedAuthentication
  rw [if_neg (by simp [hpub])]
  dsimp only []
  rw [handleInternalServiceAuth_skip req env {} hsvc hip]
  dsimp only []
  rw [if_neg (by simp)]


/-! ## Path-rewrite lemmas (SSE and standard proxy) -/

theorem rewriteSSEPath_keeps_agents (p : Str)
    (h : goHasPrefixStr p (str "/api/v1/agents/") = true) : rewriteSSEPath p = p := by
  unfold rewriteSSEPath
  rw [if_pos (by simp [h])]

theorem rewriteSSEPath_keeps_models (p : Str)
    (h : goHasPrefixStr p (str "/api/v1/models/") = true) : rewriteSSEPath p = p := by
  unfold rewriteSSEPath
  rw [if_pos (by simp [h])]

theorem rewriteSSEPath_strips (svc rest : Str) (hs : '/' ∉ svc)
    (hna : svc ≠ str "agents") (hnm : svc ≠ str "models") :
    rewriteSSEPath (str "/api/v1/" ++ svc ++ '/' :: rest) = '/' :: rest := by
  have hassoc : str "/api/v1/" ++ svc ++ '/' :: rest =
      str "/api/v1/" ++ (svc ++ '/' :: rest) := by
    rw [List.append_assoc]
  have hagents : ¬ (str "/api/v1/agents/" <+: str "/api/v1/" ++ (svc ++ '/' :: rest)) := by
    have e : str "/api/v1/agents/" = str "/api/v1/" ++ (str "agents" ++ '/' :: []) := by decide
    rw [e, List.prefix_append_right_inj, sep_marked_prefix [] rest (by decide) hs]
    rintro ⟨h1, -⟩
    exact hna h1.symm
  have hmodels : ¬ (str "/api/v1/models/" <+: str "/api/v1/" ++ (svc ++ '/' :: rest)) := by
    have e : str "/api/v1/models/" = str "/api/v1/" ++ (str "models" ++ '/' :: []) := by decide
    rw [e, List.prefix_append_right_inj, sep_marked_prefix [] rest (by decide) hs]
    rintro ⟨h1, -⟩
    exact hnm h1.symm
  have hapi : (str "/api/v1/").isPrefixOf (str "/api/v1/" ++ svc ++ '/' :: rest) = true := by
    rw [hassoc, isPrefixOf_eq_true_iff]
    exact List.prefix_append _ _
  unfold rewriteSSEPath
  rw [if_neg (by
    simp only [goHasPrefixStr, isPrefixOf_eq_true_iff, hassoc, Bool.or_eq_true,
      decide_eq_true_eq]
    rintro (hc | hc)
    · exact hagents hc
    · exact hmodels hc)]
  rw [if_pos (by simp [goHasPrefixStr, hapi])]
  rw [hassoc, goTrimPrefix_append, splitN2_append_sep rest hs]

theorem standardProxyForwardPath_id (p : Str) (h : goHasPrefixStr p (str "/") = true) :
    standardProxyForwardPath p = p := by
  have h1 : goHasSuffix [] (str "/") = false := by decide
  unfold standardProxyForwardPath singleJoiningSlash
  rw [if_neg (by simp [h1]), if_neg (by simp [h])]
  simp

/-! ## Stream-operation lemmas -/

theorem writtenBytes_streamSSE : ∀ lines : List Str,
    writtenBytes (streamSSE lines) = (lines.map (fun l => l ++ ['\n'])).flatten
  | [] => rfl
  | line :: rest => by
    by_cases h : line = [] <;>
      simp [streamSSE, writtenBytes, h, writtenBytes_streamSSE rest]

theorem flushCount_streamSSE : ∀ lines : List Str,
    flushCount (streamSSE lines) = lines.countP (fun l => decide (l = []))
  | [] => rfl
  | line :: rest => by
    by_cases h : line = [] <;>
      simp [streamSSE, flushCount, h, flushCount_streamSSE rest, List.countP_cons]

/-! ## Topic-matching lemmas -/

theorem matchTopicSegs_cons_eq (p t : Str) (ps ts : List Str)
    (hh : p ≠ str "#") (heq : p = t) :
    matchTopicSegs (p :: ps) (t :: ts) = matchTopicSegs ps ts := by
  subst heq
  show (if p ≠ str "+" ∧ p ≠ str "#" ∧ p ≠ p then false
        else if p = str "#" then true else matchTopicSegs ps ts) = matchTopicSegs ps ts
  simp [hh]

theorem matchTopicSegs_plus_cons (t : Str) (ps ts : List Str) :
    matchTopicSegs (str "+" :: ps) (t :: ts) = matchTopicSegs ps ts := by
  have hh : ¬ (str "+" = str "#") := by decide
  show (if str "+" ≠ str "+" ∧ str "+" ≠ str "#" ∧ str "+" ≠ t then false
        else if str "+" = str "#" then true else matchTopicSegs ps ts) = matchTopicSegs ps ts
  simp [hh]

theorem matchTopicSegs_lit_ne (p t : Str) (ps ts : List Str)
    (hp : p ≠ str "+") (hh : p ≠ str "#") (hne : p ≠ t) :
    matchTopicSegs (p :: ps) (t :: ts) = false := by
  show (if p ≠ str "+" ∧ p ≠ str "#" ∧ p ≠ t then false
        else if p = str "#" then true else matchTopicSegs ps ts) = false
  simp [hp, hh, hne]

theorem split_device_topic (x : Str) (hx : '/' ∉ x) :
    splitOnChar '/' (str "devices/" ++ x ++ str "/telemetry") =
      [str "devices", x, str "telemetry"] := by
  have e : str "devices/" ++ x ++ str "/telemetry" =
      str "devices" ++ '/' :: (x ++ '/' :: str "telemetry") := by
    have d : str "devices/" = str "devices" ++ ['/'] := by decide
    have t : str "/telemetry" = '/' :: str "telemetry" := by decide
    rw [d, t]
    simp [List.append_assoc]
  rw [e, splitOnChar_append_sep _ (by decide), splitOnChar_append_sep _ hx,
    splitOnChar_no_sep (by decide)]


/-! ## Claim theorems -/

/-- C1 (counterexample): the claim says a path that merely extends `/health`
(for example `/healthz`) is not bypassed; but `isPublicEndpoint` compares
with `strings.HasPrefix`, so `/healthz` is bypassed. -/
theorem c1_healthz_bypassed : isPublicEndpoint (str "/healthz") = true := by decide

/-- C1 (amended): the unified authentication middleware bypasses
authentication exactly when the request path has `/health`, `/ready`, or
`/api/v1/gateway/services` as a prefix (prefix match, not exact match); and
every request classified Anonymous has a path matching one of these three
prefixes. -/
theorem c1_public_bypass_is_prefix_based :
    (∀ path : Str, isPublicEndpoint path =
        (goHasPrefixStr path (str "/health") || goHasPrefixStr path (str "/ready") ||
          goHasPrefixStr path (str "/api/v1/gateway/services"))) ∧
    (∀ (req : Request) (env : Env),
      (UnifiedAuthentication req env).principal = some .anonymous →
      isPublicEndpoint req.path = true) :=
  ⟨fun path => by simp [isPublicEndpoint, Bool.or_assoc],
    UnifiedAuthentication_anonymous_public⟩

/-- C1 (witness): the amended theorem applied to a concrete anonymous
request on `/health`. -/
theorem c1_bypass_witness : isPublicEndpoint reqHealth.path = true :=
  c1_public_bypass_is_prefix_based.2 reqHealth envDeny (by decide)

/-- C2 (counterexample): on the standard proxy path (a host-only reverse
proxy target, as used for registry-discovered untagged instances and for
static fallbacks) the full inbound path is forwarded for the logical
service `mcp`, not the stripped `/tools/call` the claim requires. -/
theorem c2_standard_path_not_stripped :
    standardProxyForwardPath (str "/api/v1/mcp/tools/call") =
      str "/api/v1/mcp/tools/call" ∧
    str "/api/v1/mcp/tools/call" ≠ str "/tools/call" ∧
    rewriteSSEPath (str "/api/v1/mcp/tools/call") = str "/tools/call" := by
  refine ⟨by decide, by decide, by decide⟩

/-- C2 (amended): only the SSE proxy component rewrites paths: it preserves
paths under `/api/v1/agents/` and `/api/v1/models/` in full and strips the
`/api/v1/{service}` prefix from every other `/api/v1/` path (on both its
SSE path and its non-SSE fallback, which share `rewriteSSEPath`); the
standard proxy path forwards the full inbound path unchanged for every
service. -/
theorem c2_path_rewrite_rules :
    (∀ p : Str, goHasPrefixStr p (str "/api/v1/agents/") = true →
      rewriteSSEPath p = p) ∧
    (∀ p : Str, goHasPrefixStr p (str "/api/v1/models/") = true →
      rewriteSSEPath p = p) ∧
    (∀ svc rest : Str, '/' ∉ svc → svc ≠ str "agents" → svc ≠ str "models" →
      rewriteSSEPath (str "/api/v1/" ++ svc ++ '/' :: rest) = '/' :: rest) ∧
    (∀ p : Str, goHasPrefixStr p (str "/") = true → standardProxyForwardPath p = p) :=
  ⟨rewriteSSEPath_keeps_agents, rewriteSSEPath_keeps_models, rewriteSSEPath_strips,
    standardProxyForwardPath_id⟩

/-- C2 (witness): the amended rules applied to concrete paths. -/
theorem c2_rewrite_witness :
    rewriteSSEPath (str "/api/v1/" ++ str "mcp" ++ '/' :: str "tools/call") =
      '/' :: str "tools/call" ∧
    rewriteSSEPath (str "/api/v1/agents/chat") = str "/api/v1/agents/chat" ∧
    standardProxyForwardPath (str "/api/v1/users/me") = str "/api/v1/users/me" :=
  ⟨c2_path_rewrite_rules.2.2.1 (str "mcp") (str "tools/call")
      (by decide) (by decide) (by decide),
    c2_path_rewrite_rules.1 (str "/api/v1/agents/chat") (by decide),
    c2_path_rewrite_rules.2.2.2 (str "/api/v1/users/me") (by decide)⟩

/-- C3 (confirmed): in the JWT flow with a non-empty resource selector, a
transport-level failure of `/check-access` lets the request proceed
(fail-open: downstream handlers run, nothing aborted, no error written);
a `has_access=false` reply produces a 403 `insufficient permissions`
response first in the written sequence, aborts, and never invokes the
downstream handlers. -/
theorem c3_authz_fail_open_and_deny (req : Request) (env : Env) (t : Str)
    (r : TokenVerification)
    (hpub : isPublicEndpoint req.path = false)
    (hsvc : req.xServiceName = []) (hip : isLocalhost req.clientIP = false)
    (hauth : req.authorization = str "Bearer " ++ t) (ht : t ≠ [])
    (hv : env.verifyToken = .ok r) (hvalid : r.valid = true)
    (hsel : ¬((getResourceInfoFromPath req.path).1 = [] ∨
      (getResourceInfoFromPath req.path).2.2 = [])) :
    (∀ u : Unit, env.checkAccess = .error u →
      (UnifiedAuthentication req env).nextCalled = true ∧
      (UnifiedAuthentication req env).aborted = false ∧
      (UnifiedAuthentication req env).written = []) ∧
    (∀ a : AccessCheck, env.checkAccess = .ok a → a.hasAccess = false →
      (UnifiedAuthentication req env).written.head? =
        some (403, str "insufficient permissions") ∧
      (UnifiedAuthentication req env).aborted = true ∧
      (UnifiedAuthentication req env).nextCalled = false) := by
  have hjwt := handleJWTAuth_verified req env {} t r hauth ht hv hvalid
  constructor
  · intro u henv
    have hgate := checkResourcePermissions_error env req.path
      { ({} : GinCtx) with principal := some (.externalJWT r.userId r.email r.provider) }
      u henv hsel
    have hext : handleExternalAuth req env {} =
        (({ written := [], aborted := false, nextCalled := true,
            principal := some (.externalJWT r.userId r.email r.provider),
            accessLevel := none, authzCalls := 1 } : GinCtx), true) := by
      unfold handleExternalAuth
      rw [hjwt]
      dsimp only []
      rw [hgate]
      simp [GinCtx.next]
    rw [UnifiedAuthentication_external_route req env hpub hsvc hip, hext]
    simp
  · intro a henv ha
    have hgate := checkResourcePermissions_deny env req.path
      { ({} : GinCtx) with principal := some (.externalJWT r.userId r.email r.provider) }
      a henv ha hsel
    have hjwtres : handleJWTAuth req env {} =
        (({ written := [(403, str "insufficient permissions")], aborted := true,
            nextCalled := false,
            principal := some (.externalJWT r.userId r.email r.provider),
            accessLevel := none, authzCalls := 1 } : GinCtx), false) := by
      rw [hjwt]
      dsimp only []
      rw [hgate]
      simp [GinCtx.json, GinCtx.abort]
    by_cases hk : (handleAPIKeyAuth req env (handleJWTAuth req env {}).1).2 = true
    · have hext : handleExternalAuth req env {} =
          handleAPIKeyAuth req env (handleJWTAuth req env {}).1 := by
        unfold handleExternalAuth
        dsimp only []
        rw [if_neg (by rw [hjwtres]; simp), if_pos hk]
      rw [UnifiedAuthentication_external_route req env hpub hsvc hip, hext]
      rw [if_pos hk]
      rw [hjwtres] at hk ⊢
      simp [handleAPIKeyAuth_written, handleAPIKeyAuth_aborted,
        handleAPIKeyAuth_nextCalled_of_aborted]
    · have hext : handleExternalAuth req env {} =
          ((handleAPIKeyAuth req env (handleJWTAuth req env {}).1).1, false) := by
        unfold handleExternalAuth
        dsimp only []
        rw [if_neg (by rw [hjwtres]; simp), if_neg hk]
      rw [UnifiedAuthentication_external_route req env hpub hsvc hip, hext]
      rw [if_neg (by simp)]
      rw [hjwtres]
      simp [GinCtx.json, GinCtx.abort, handleAPIKeyAuth_written, handleAPIKeyAuth_aborted,
        handleAPIKeyAuth_nextCalled_of_aborted]

/-- C3 (witness): the fail-open and deny branches at a concrete MCP
tool-call request. -/
theorem c3_authz_witness :
    ((UnifiedAuthentication reqDeny envFailOpen).nextCalled = true ∧
      (UnifiedAuthentication reqDeny envFailOpen).aborted = false ∧
      (UnifiedAuthentication reqDeny envFailOpen).written = []) ∧
    ((UnifiedAuthentication reqDeny envDeny).written.head? =
        some (403, str "insufficient permissions") ∧
      (UnifiedAuthentication reqDeny envDeny).aborted = true ∧
      (UnifiedAuthentication reqDeny envDeny).nextCalled = false) :=
  ⟨(c3_authz_fail_open_and_deny reqDeny envFailOpen (str "tok123") tokenOK
      (by decide) (by decide) (by decide) (by decide) (by decide) rfl rfl
      (by decide)).1 () rfl,
    (c3_authz_fail_open_and_deny reqDeny envDeny (str "tok123") tokenOK
      (by decide) (by decide) (by decide) (by decide) (by decide) rfl rfl
      (by decide)).2 accessDenied rfl rfl⟩

/-- C4 (counterexample): a request with a valid JWT that is denied by the
authorization gate and also carries a valid API key ends with
`auth_method = api_key` while one authorization call was made — the claim
"api_key-authenticated requests make no authorization call" fails. -/
theorem c4_api_key_after_jwt_deny :
    (UnifiedAuthentication reqWithKey envApiKeyAfterDeny).principal =
      some (.externalAPIKey (str "api-key-k1") [str "read"]) ∧
    (UnifiedAuthentication reqWithKey envApiKeyAfterDeny).authzCalls = 1 := by
  refine ⟨by decide, by decide⟩

/-- C4 (amended): the API-key flow itself never calls the authorization
service; a request with no `Authorization` header makes no authorization
call at all (in particular one authenticated purely via API key); and the
JWT flow with a verified token makes exactly one authorization call when
the derived resource selector is non-empty and none when it is empty. The
only exception to the claim is a request whose valid JWT is denied by the
gate and which then authenticates via API key: it ends as api_key yet one
call was made. -/
theorem c4_authz_call_discipline :
    (∀ (req : Request) (env : Env) (c : GinCtx),
      ((handleAPIKeyAuth req env c).1).authzCalls = c.authzCalls) ∧
    (∀ (req : Request) (env : Env), req.authorization = [] →
      (UnifiedAuthentication req env).authzCalls = 0) ∧
    (∀ (req : Request) (env : Env) (c : GinCtx) (t : Str) (r : TokenVerification),
      req.authorization = str "Bearer " ++ t → t ≠ [] →
      env.verifyToken = .ok r → r.valid = true →
      ((handleJWTAuth req env c).1).authzCalls =
        c.authzCalls + (if (getResourceInfoFromPath req.path).1 = [] ∨
            (getResourceInfoFromPath req.path).2.2 = [] then 0 else 1)) := by
  refine ⟨handleAPIKeyAuth_authzCalls, UnifiedAuthentication_authzCalls_no_header, ?_⟩
  intro req env c t r hauth ht hv hvalid
  rw [handleJWTAuth_verified req env c t r hauth ht hv hvalid]
  dsimp only []
  cases hb : (checkResourcePermissions env req.path
      { c with principal := some (.externalJWT r.userId r.email r.provider) }).2
  · rw [if_pos (by rfl)]
    dsimp only []
    rw [GinCtx.abort_authzCalls, GinCtx.json_authzCalls, checkResourcePermissions_authzCalls]
  · rw [if_neg (by simp)]
    dsimp only []
    rw [GinCtx.next_authzCalls, checkResourcePermissions_authzCalls]

/-- C4 (witness): a keyless `/health` request makes no authorization call;
the JWT flow on the MCP tool-call path makes exactly one. -/
theorem c4_authz_calls_witness :
    (UnifiedAuthentication reqHealth envDeny).authzCalls = 0 ∧
    ((handleJWTAuth reqDeny envDeny {}).1).authzCalls =
      ({} : GinCtx).authzCalls + (if (getResourceInfoFromPath reqDeny.path).1 = [] ∨
          (getResourceInfoFromPath reqDeny.path).2.2 = [] then 0 else 1) :=
  ⟨c4_authz_call_discipline.2.1 reqHealth envDeny (by decide),
    c4_authz_call_discipline.2.2 reqDeny envDeny {} (str "tok123") tokenOK
      (by decide) (by decide) rfl rfl⟩

/-- C5 (confirmed): for a registry-discovered instance the SSE proxy
strategy is chosen iff the tag set contains `sse` or `streaming`; and even
then, an inbound `Accept` header containing neither `text/event-stream`
nor `*/*` is handled by the standard buffered-copy behavior. -/
theorem c5_sse_strategy_selection :
    (∀ inst : ServiceInstance, chooseStrategy inst = .sse ↔
        str "sse" ∈ inst.tags ∨ str "streaming" ∈ inst.tags) ∧
    (∀ (accept : Str) (resp : UpstreamResponse),
      goContains accept (str "text/event-stream") = false →
      goContains accept (str "*/*") = false →
      sseProxyHandle accept resp = copyResponse resp) := by
  constructor
  · intro inst
    unfold chooseStrategy hasSSETag
    split_ifs with h
    · simp only [List.any_eq_true, Bool.or_eq_true, decide_eq_true_eq] at h
      rcases h with ⟨t, ht, rfl | rfl⟩
      · simp [ht]
      · simp [ht]
    · simp only [List.any_eq_true, Bool.or_eq_true, decide_eq_true_eq] at h
      push_neg at h
      constructor
      · intro hc
        exact absurd hc (by simp)
      · rintro (hm | hm)
        · exact absurd rfl (h _ hm).1
        · exact absurd rfl (h _ hm).2
  · intro accept resp h1 h2
    unfold sseProxyHandle proxyHTTPRespond
    rw [if_pos (by simp [h1, h2])]

/-- C5 (witness): an `sse`-tagged instance selects the SSE strategy, and a
JSON-only `Accept` header falls back to the buffered copy. -/
theorem c5_sse_witness :
    chooseStrategy sampleInstance = .sse ∧
    sseProxyHandle (str "application/json") jsonUpstream = copyResponse jsonUpstream :=
  ⟨(c5_sse_strategy_selection.1 sampleInstance).mpr (Or.inl (by decide)),
    c5_sse_strategy_selection.2 (str "application/json") jsonUpstream
      (by decide) (by decide)⟩

/-- C6 (confirmed): an upstream `text/event-stream` response is streamed
with the four SSE headers and the upstream status, every line written with
a trailing newline, a flush after every blank line, ending at EOF; a
non-event-stream upstream is copied via the standard header+body copy. -/
theorem c6_sse_streaming_response :
    ∀ resp : UpstreamResponse,
      (goContains resp.contentType (str "text/event-stream") = true →
        proxySSERespond resp =
          .stream sseResponseHeaders resp.status (streamSSE resp.bodyLines) ∧
        writtenBytes (streamSSE resp.bodyLines) =
          (resp.bodyLines.map (fun l => l ++ ['\n'])).flatten ∧
        flushCount (streamSSE resp.bodyLines) =
          resp.bodyLines.countP (fun l => decide (l = []))) ∧
      (goContains resp.contentType (str "text/event-stream") = false →
        proxySSERespond resp = copyResponse resp) := by
  intro resp
  constructor
  · intro h
    refine ⟨?_, writtenBytes_streamSSE resp.bodyLines, flushCount_streamSSE resp.bodyLines⟩
    unfold proxySSERespond
    rw [if_neg (by simp [h])]
  · intro h
    unfold proxySSERespond
    rw [if_pos (by simp [h])]

/-- C6 (witness): the streaming and copy branches at concrete upstream
responses. -/
theorem c6_sse_stream_witness :
    proxySSERespond sseUpstream =
      .stream sseResponseHeaders sseUpstream.status (streamSSE sseUpstream.bodyLines) ∧
    proxySSERespond jsonUpstream = copyResponse jsonUpstream :=
  ⟨((c6_sse_streaming_response sseUpstream).1 (by decide)).1,
    (c6_sse_streaming_response jsonUpstream).2 (by decide)⟩

/-- C7 (counterexample): with a catalog whose only record is unhealthy, the
healthy set is empty and `DiscoverService` returns an error — the claim
says an empty result is a valid non-error outcome. -/
theorem c7_empty_is_error :
    DiscoverService (.ok unhealthyCatalog) = .error .noHealthyInstances := rfl

/-- C7 (amended): `DiscoverService` returns only healthy instances but maps
an empty healthy set to an error (it is not a valid non-error outcome);
`GetHealthyInstance` returns the first healthy instance, the emptiness
error arising already inside `DiscoverService` and propagating to the
caller. -/
theorem c7_registry_discovery :
    (∀ catalog : List HealthEntry,
      (DiscoverService (.ok catalog) = .error .noHealthyInstances ↔
        consulPassingQuery catalog = [])) ∧
    (∀ (catalog : List HealthEntry) (l : List ServiceInstance),
      DiscoverService (.ok catalog) = .ok l →
        l = consulPassingQuery catalog ∧
        ∀ i ∈ l, ∃ e ∈ catalog, e.instance_ = i ∧ e.healthy = true) ∧
    (∀ (catalog : List HealthEntry) (i : ServiceInstance) (rest : List ServiceInstance),
      consulPassingQuery catalog = i :: rest →
        GetHealthyInstance (.ok catalog) = .ok i) := by
  have hdisc : ∀ catalog : List HealthEntry, DiscoverService (.ok catalog) =
      (if (consulPassingQuery catalog).length = 0 then .error .noHealthyInstances
       else .ok (consulPassingQuery catalog)) := fun catalog => rfl
  refine ⟨?_, ?_, ?_⟩
  · intro catalog
    rw [hdisc]
    split_ifs with h
    · simp [List.length_eq_zero.mp h]
    · constructor
      · intro hc
        exact absurd hc (by simp)
      · intro hc
        exact absurd (by rw [hc]; rfl) h
  · intro catalog l hl
    rw [hdisc] at hl
    split_ifs at hl with h
    cases hl
    refine ⟨rfl, ?_⟩
    intro i hi
    unfold consulPassingQuery at hi
    simp only [List.mem_map, List.mem_filter] at hi
    rcases hi with ⟨e, ⟨he, hh⟩, rfl⟩
    exact ⟨e, he, rfl, hh⟩
  · intro catalog i rest hq
    unfold GetHealthyInstance
    rw [hdisc, if_neg (by rw [hq]; simp)]
    rw [hq]
    rfl

/-- C7 (witness): a healthy singleton catalog discovers and picks that
instance. -/
theorem c7_registry_witness :
    ([sampleInstance] = consulPassingQuery healthyCatalog ∧
      ∀ i ∈ [sampleInstance], ∃ e ∈ healthyCatalog, e.instance_ = i ∧ e.healthy = true) ∧
    GetHealthyInstance (.ok healthyCatalog) = .ok sampleInstance :=
  ⟨c7_registry_discovery.2.1 healthyCatalog [sampleInstance] rfl,
    c7_registry_discovery.2.2 healthyCatalog sampleInstance [] rfl⟩

/-- C8 (counterexample): the claim says a pattern ending in `#` matches
topics with more segments than the pattern; `matchTopic` first requires
equal segment counts, so `devices/#` does not match `devices/a/b`. -/
theorem c8_hash_no_tail_match :
    matchTopic (str "devices/#") (str "devices/a/b") = false := by decide

/-- C8 (amended): for every single-segment device id X,
`devices/X/telemetry` matches `devices/+/telemetry` and not
`devices/+/status`; `+` matches exactly one segment; but a topic whose
segment count differs from the pattern never matches (so `#` only accepts
the remainder of an equal-length topic); a message whose topic matches no
registered pattern invokes no handler and is dropped. -/
theorem c8_topic_matching :
    (∀ x : Str, '/' ∉ x →
      matchTopic (str "devices/+/telemetry") (str "devices/" ++ x ++ str "/telemetry") = true ∧
      matchTopic (str "devices/+/status") (str "devices/" ++ x ++ str "/telemetry") = false) ∧
    (∀ pat topic : Str,
      (splitOnChar '/' pat).length ≠ (splitOnChar '/' topic).length →
      matchTopic pat topic = false) ∧
    (∀ (handlers : List (Str × Nat)) (topic : Str),
      (∀ h ∈ handlers, matchTopic h.1 topic = false) →
      handleMessage handlers topic = none) := by
  refine ⟨?_, ?_, ?_⟩
  · intro x hx
    have hsplit := split_device_topic x hx
    have hp1 : splitOnChar '/' (str "devices/+/telemetry") =
        [str "devices", str "+", str "telemetry"] := by decide
    have hp2 : splitOnChar '/' (str "devices/+/status") =
        [str "devices", str "+", str "status"] := by decide
    constructor
    · unfold matchTopic
      dsimp only []
      rw [hp1, hsplit, if_neg (by simp)]
      rw [matchTopicSegs_cons_eq _ _ _ _ (by decide) rfl, matchTopicSegs_plus_cons,
        matchTopicSegs_cons_eq _ _ _ _ (by decide) rfl]
      rfl
    · unfold matchTopic
      dsimp only []
      rw [hp2, hsplit, if_neg (by simp)]
      rw [matchTopicSegs_cons_eq _ _ _ _ (by decide) rfl, matchTopicSegs_plus_cons,
        matchTopicSegs_lit_ne _ _ _ _ (by decide) (by decide) (by decide)]
  · intro pat topic h
    unfold matchTopic
    dsimp only []
    rw [if_pos h]
  · intro handlers topic h
    unfold handleMessage
    rw [List.find?_eq_none.mpr (fun x hx => by rw [h x hx]; simp)]
    rfl

/-- C8 (witness): the matching laws at device id `sensor001`, and a message
on an unregistered topic dropped. -/
theorem c8_topic_witness :
    (matchTopic (str "devices/+/telemetry")
        (str "devices/" ++ str "sensor001" ++ str "/telemetry") = true ∧
      matchTopic (str "devices/+/status")
        (str "devices/" ++ str "sensor001" ++ str "/telemetry") = false) ∧
    handleMessage [(str "devices/+/telemetry", 1)] (str "other/topic") = none :=
  ⟨c8_topic_matching.1 (str "sensor001") (by decide),
    c8_topic_matching.2.2 [(str "devices/+/telemetry", 1)] (str "other/topic")
      (by decide)⟩

/-- C9 (confirmed): with the limiter enabled, admission is decided solely
by the global token bucket (the middleware never sees the request, hence
not its path, and `/health` runs behind it); at rate 1 and burst 1, of two
immediate requests to `/health` the first is routed and answers 200 and
the second is rejected 429 with the documented body. -/
theorem c9_rate_limit_bucket :
    (∀ (rps burst : Nat) (elapsed : ℚ) (l : Limiter),
      (RateLimit true rps burst elapsed l).2 = .routed ↔
        (limiterAllow rps burst elapsed l).1 = true) ∧
    healthStatus (RateLimit true 1 1 0 (newLimiter 1)).2 = 200 ∧
    (RateLimit true 1 1 0 (RateLimit true 1 1 0 (newLimiter 1)).1).2 =
      .limited 429 (str "rate limit exceeded")
        (str "rate limit: 1 requests per second") ∧
    healthStatus (RateLimit true 1 1 0 (RateLimit true 1 1 0 (newLimiter 1)).1).2 = 429 := by
  have hfirst : RateLimit true 1 1 0 (newLimiter 1) = (⟨0⟩, .routed) := by
    norm_num [RateLimit, limiterAllow, newLimiter]
  have hsecond : RateLimit true 1 1 0 (⟨0⟩ : Limiter) =
      (⟨0⟩, .limited 429 (str "rate limit exceeded")
        (str "rate limit: " ++ natToStr 1 ++ str " requests per second")) := by
    norm_num [RateLimit, limiterAllow]
  refine ⟨?_, ?_, ?_, ?_⟩
  · intro rps burst elapsed l
    unfold RateLimit
    rw [if_pos rfl]
    dsimp only []
    split_ifs with h <;> simp [h]
  · rw [hfirst]
    rfl
  · rw [hfirst, hsecond]
    decide
  · rw [hfirst, hsecond]
    rfl

/-- C10 (confirmed): when JWT verification succeeds but the authorization
gate denies, `handleJWTAuth` writes the 403, aborts, and still returns
false; the middleware then tries the API-key flow, and with no API key
present the final 401 body is appended to the already-answered response,
so the written sequence is the 403 followed by the 401, with no downstream
handler ever invoked. -/
theorem c10_deny_then_401 (req : Request) (env : Env) (t : Str)
    (r : TokenVerification) (a : AccessCheck)
    (hpub : isPublicEndpoint req.path = false)
    (hsvc : req.xServiceName = []) (hip : isLocalhost req.clientIP = false)
    (hauth : req.authorization = str "Bearer " ++ t) (ht : t ≠ [])
    (hv : env.verifyToken = .ok r) (hvalid : r.valid = true)
    (hsel : ¬((getResourceInfoFromPath req.path).1 = [] ∨
      (getResourceInfoFromPath req.path).2.2 = []))
    (henv : env.checkAccess = .ok a) (ha : a.hasAccess = false)
    (hk : req.xApiKey = []) (hq : req.apiKeyQuery = []) (hco : req.apiKeyCookie = none) :
    (handleJWTAuth req env {}).2 = false ∧
    ((handleJWTAuth req env {}).1).written = [(403, str "insufficient permissions")] ∧
    ((handleJWTAuth req env {}).1).aborted = true ∧
    (UnifiedAuthentication req env).written =
      [(403, str "insufficient permissions"), (401, str "authentication required")] ∧
    (UnifiedAuthentication req env).nextCalled = false := by
  have hjwt := handleJWTAuth_verified req env {} t r hauth ht hv hvalid
  have hgate := checkResourcePermissions_deny env req.path
    { ({} : GinCtx) with principal := some (.externalJWT r.userId r.email r.provider) }
    a henv ha hsel
  have hjwtres : handleJWTAuth req env {} =
      (({ written := [(403, str "insufficient permissions")], aborted := true,
          nextCalled := false,
          principal := some (.externalJWT r.userId r.email r.provider),
          accessLevel := none, authzCalls := 1 } : GinCtx), false) := by
    rw [hjwt]
    dsimp only []
    rw [hgate]
    simp [GinCtx.json, GinCtx.abort]
  have hext : handleExternalAuth req env {} =
      (({ written := [(403, str "insufficient permissions")], aborted := true,
          nextCalled := false,
          principal := some (.externalJWT r.userId r.email r.provider),
          accessLevel := none, authzCalls := 1 } : GinCtx), false) := by
    unfold handleExternalAuth
    dsimp only []
    rw [if_neg (by rw [hjwtres]; simp), handleAPIKeyAuth_no_key req env _ hk hq hco,
      if_neg (by simp)]
    rw [hjwtres]
  rw [UnifiedAuthentication_external_route req env hpub hsvc hip, hext, hjwtres]
  simp [GinCtx.json, GinCtx.abort]

/-- C10 (witness): the double write at a concrete denied MCP tool-call
request carrying no API key. -/
theorem c10_deny_witness :
    (handleJWTAuth reqDeny envDeny {}).2 = false ∧
    ((handleJWTAuth reqDeny envDeny {}).1).written =
      [(403, str "insufficient permissions")] ∧
    ((handleJWTAuth reqDeny envDeny {}).1).aborted = true ∧
    (UnifiedAuthentication reqDeny envDeny).written =
      [(403, str "insufficient permissions"), (401, str "authentication required")] ∧
    (UnifiedAuthentication reqDeny envDeny).nextCalled = false :=
  c10_deny_then_401 reqDeny envDeny (str "tok123") tokenOK accessDenied
    (by decide) (by decide) (by decide) (by decide) (by decide) rfl rfl
    (by decide) rfl rfl (by decide) (by decide) (by decide)


/-- C9 (witness): the admission equivalence applied to a fresh bucket at
rate 1, burst 1. -/
theorem c9_rate_limit_witness :
    (RateLimit true 1 1 0 (newLimiter 1)).2 = .routed :=
  (c9_rate_limit_bucket.1 1 1 0 (newLimiter 1)).mpr
    (by norm_num [limiterAllow, newLimiter])

end IsaGateway
